import Mathlib

/-!
Verification of the SDL2 sandbox demonstration driver (src/main.cpp).

The program is a single linear `main` routine that exercises SDL2 features in
order: hint, error-string round trip, `SDL_Init`, subsystem queries, system
information, assertions, timers, threads with an atomic counter, the memory
backed `SDL_RWops` stream, video/display enumeration, window management,
rectangles, an event-polling loop, and teardown.

The development below embeds the control flow of `main` as a call-trace
function over an environment of library results, and embeds the library
operations the program relies on (error string, subsystem query, timers,
memory streams, threads, events) as explicit state-passing functions.  The
library operations themselves are not part of the repository, so those
definitions are modelled from the specification's description of their
contracts; the control flow of `main` is translated directly from the source.
-/

namespace SDL2Sandbox

/-! ## SDL constants (values from the SDL2 headers used by main.cpp) -/

def SDL_INIT_TIMER : ℕ := 0x1
def SDL_INIT_AUDIO : ℕ := 0x10
def SDL_INIT_VIDEO : ℕ := 0x20
def SDL_INIT_JOYSTICK : ℕ := 0x200
def SDL_INIT_HAPTIC : ℕ := 0x1000
def SDL_INIT_GAMECONTROLLER : ℕ := 0x2000
def SDL_INIT_EVENTS : ℕ := 0x4000

def SDL_QUIT : ℕ := 0x100
def SDL_MOUSEBUTTONDOWN : ℕ := 0x401
def SDL_MOUSEBUTTONUP : ℕ := 0x402
def SDL_IGNORE : ℕ := 0
def SDL_WINDOW_OPENGL : ℕ := 0x2

/-- The flag set passed to `SDL_Init` in main.cpp line 109. -/
def SDL_INIT_FLAGS : ℕ := SDL_INIT_VIDEO ||| SDL_INIT_TIMER

/-! ## Process-wide SDL library state

Modelled from the spec: the library keeps a process-wide, overwritable
last-error string and a mask of initialized subsystems ("Last-error string: a
process-wide, overwritable diagnostic string set by the library on failure and
readable/clearable by the caller"). -/

structure SDLState where
  err : String
  initMask : ℕ
deriving DecidableEq

/-- Modelled from the spec: `SDL_SetError` overwrites the process-wide
last-error string with the given message. -/
def SDL_SetError (msg : String) (st : SDLState) : SDLState :=
  { st with err := msg }

/-- Modelled from the spec: `SDL_ClearError` resets the process-wide
last-error string to the empty string. -/
def SDL_ClearError (st : SDLState) : SDLState :=
  { st with err := "" }

/-- Modelled from the spec: `SDL_GetError` reads the process-wide last-error
string without modifying any state. -/
def SDL_GetError (st : SDLState) : String :=
  st.err

/-- Modelled from the spec: `SDL_WasInit` is a read-only probe returning the
subset of the queried flags that are initialized; it performs no mutation
("Subsystem-query calls are read-only boolean probes with no side effects"). -/
def SDL_WasInit (flags : ℕ) (st : SDLState) : ℕ × SDLState :=
  (st.initMask &&& flags, st)

/-- The seven subsystem flags queried in main.cpp lines 121-127, in source
order. -/
def subsystemFlags : List ℕ :=
  [SDL_INIT_TIMER, SDL_INIT_AUDIO, SDL_INIT_VIDEO, SDL_INIT_JOYSTICK,
   SDL_INIT_HAPTIC, SDL_INIT_GAMECONTROLLER, SDL_INIT_EVENTS]

/-- The seven probes of main.cpp lines 121-127 run in sequence over the
library state, collecting the `SDL_WasInit(...) != 0` booleans. -/
def wasInitQueries (st : SDLState) : List Bool × SDLState :=
  subsystemFlags.foldl
    (fun acc f =>
      let r := SDL_WasInit f acc.2
      (acc.1 ++ [r.1 != 0], r.2))
    ([], st)

/-! ## Events and the polling loop (main.cpp lines 556-567) -/

structure SDL_Event where
  type : ℕ
deriving DecidableEq

/-- The body of the `switch (event.type)` statement at main.cpp lines 560-564:
the only handled case is `SDL_QUIT`, which sets `running` to `false`; every
other event type falls through with no effect. -/
def handleEvent (running : Bool) (e : SDL_Event) : Bool :=
  if e.type = SDL_QUIT then false else running

/-- The inner `while (SDL_PollEvent(&event))` loop: drains a queued batch of
events, threading the `running` flag through `handleEvent`. -/
def drainEvents (running : Bool) : List SDL_Event → Bool
  | [] => running
  | e :: rest => drainEvents (handleEvent running e) rest

/-- Whether a batch of events contains a quit event. -/
def hasQuit (evs : List SDL_Event) : Bool :=
  evs.any fun e => decide (e.type = SDL_QUIT)

/-- The value of `running` after `n` iterations of the outer
`while (running)` loop, where iteration `m` drains the batch of events that
the queue delivers on that pass. -/
def runningAfter (batches : ℕ → List SDL_Event) : ℕ → Bool
  | 0 => true
  | n + 1 =>
      if runningAfter batches n then drainEvents true (batches n) else false

/-! ## Periodic timers (main.cpp lines 222-229)

Modelled from the spec: "Periodic timer registration returns an opaque
non-zero identifier on success; registering with an invalid configuration or
removing a nonexistent identifier must be detectable by a sentinel-equality
check return value". -/

structure TimerState where
  nextId : ℕ
  issued : List ℕ
  active : List ℕ
  hsub : ∀ i, i ∈ active → i ∈ issued

def initialTimerState : TimerState :=
  { nextId := 0, issued := [], active := [],
    hsub := fun i h => absurd h (List.not_mem_nil i) }

/-- Modelled from the spec: `SDL_AddTimer` registers a periodic timer.  On
success it issues a fresh non-zero identifier; on failure it returns the
sentinel `0`.  The `ok` flag stands for whether the library accepts the
registration. -/
def SDL_AddTimer (ok : Bool) (ts : TimerState) : ℕ × TimerState :=
  if ok then
    (ts.nextId + 1,
     { nextId := ts.nextId + 1,
       issued := (ts.nextId + 1) :: ts.issued,
       active := (ts.nextId + 1) :: ts.active,
       hsub := by
         intro i h
         rcases List.mem_cons.mp h with h | h
         · exact List.mem_cons.mpr (Or.inl h)
         · exact List.mem_cons.mpr (Or.inr (ts.hsub i h)) })
  else (0, ts)

/-- Modelled from the spec: `SDL_RemoveTimer` returns `true` and deactivates
the timer if the identifier names an active timer, and returns the sentinel
`false` ("a not-found condition") otherwise. -/
def SDL_RemoveTimer (id : ℕ) (ts : TimerState) : Bool × TimerState :=
  if id ∈ ts.active then
    (true,
     { ts with
       active := ts.active.erase id,
       hsub := fun i h => ts.hsub i (List.mem_of_mem_erase h) })
  else (false, ts)

/-! ## Memory-backed streams (main.cpp lines 300-321)

Modelled from the spec: "The generic stream abstraction, when backed by
memory, supports write-after-read within the buffer's fixed capacity only;
writing past the originally provided buffer length is the described failure
condition (reported, not prevented), and the abstraction must be explicitly
closed to release any allocation it performed."  Bytes are modelled as natural
numbers. -/

structure SDL_RWops where
  buf : List ℕ
  pos : ℕ
  len : ℕ
  allocated : Bool
deriving DecidableEq

/-- Modelled from the spec: `SDL_RWFromMem` wraps a caller-provided memory
buffer in a freshly allocated stream structure positioned at the start; the
original buffer length is the fixed capacity. -/
def SDL_RWFromMem (mem : List ℕ) : SDL_RWops :=
  { buf := mem, pos := 0, len := mem.length, allocated := true }

/-- Overwrite `buf` starting at `pos` with `data`, leaving the rest intact. -/
def writeBytes (buf : List ℕ) (pos : ℕ) (data : List ℕ) : List ℕ :=
  buf.take pos ++ data ++ buf.drop (pos + data.length)

/-- Modelled from the spec: `SDL_RWwrite` on a memory stream writes the given
bytes at the current position.  If the bytes fit within the originally
provided buffer length the write succeeds and returns the full count;
otherwise only the part that fits is written, a smaller count is returned and
the last-error string is set (the failure is reported, the buffer is never
overflowed). -/
def SDL_RWwrite (ops : SDL_RWops) (data : List ℕ) (st : SDLState) :
    ℕ × SDL_RWops × SDLState :=
  if ops.pos + data.length ≤ ops.len then
    (data.length,
     { ops with
       buf := writeBytes ops.buf ops.pos data,
       pos := ops.pos + data.length },
     st)
  else
    (ops.len - ops.pos,
     { ops with
       buf := writeBytes ops.buf ops.pos (data.take (ops.len - ops.pos)),
       pos := ops.len },
     SDL_SetError "Memory write would exceed buffer length" st)

/-- Modelled from the spec: `SDL_RWclose` releases the allocation performed by
the stream structure and reports success with `0`. -/
def SDL_RWclose (ops : SDL_RWops) : Int × SDL_RWops :=
  (0, { ops with allocated := false })

/-! ## Threads and the atomic counter (main.cpp lines 54-61 and 261-272)

Each worker runs `thread_function`: `SDL_Delay`, then `SDL_Log`, then a single
`SDL_AtomicAdd(&sAtomicInt, 1)`.  The main thread detaches the first worker,
joins ("waits for") the second and third, and then reads the counter with
`SDL_AtomicGet`.  The semantics of join (blocks until the target has finished)
and of the atomic primitives (indivisible increment / read) are modelled from
the spec; the per-thread programs and their order are translated from the
source.  An interleaving is an arbitrary schedule of thread identifiers; a
scheduled thread that is blocked or finished takes no step. -/

structure ThreadSys where
  counter : ℕ
  w1 : ℕ
  w2 : ℕ
  w3 : ℕ
  mainPC : ℕ
  readValue : Option ℕ
deriving DecidableEq

/-- Initial system state: all three workers created at the top of
`thread_function`, main about to execute `SDL_DetachThread(thread1)`. -/
def initSys : ThreadSys :=
  { counter := 0, w1 := 0, w2 := 0, w3 := 0, mainPC := 0, readValue := none }

/-- One step of `thread_function` (main.cpp lines 54-61): pc 0 is
`SDL_Delay`, pc 1 is `SDL_Log`, pc 2 is the `SDL_AtomicAdd` increment, pc 3 is
finished (no further steps). -/
def workerStepAux (pc counter : ℕ) : Option (ℕ × ℕ) :=
  if pc = 0 then some (1, counter)
  else if pc = 1 then some (2, counter)
  else if pc = 2 then some (3, counter + 1)
  else none

inductive Tid where
  | t1
  | t2
  | t3
  | mainT
deriving DecidableEq

/-- One step of the system taken by the given thread, or `none` if that
thread is blocked or finished.  Main's program (main.cpp lines 268-272):
pc 0 `SDL_DetachThread(thread1)`, pc 1 `SDL_WaitThread(thread2, ...)` which is
enabled only once worker 2 has finished, pc 2 `SDL_WaitThread(thread3, ...)`
enabled only once worker 3 has finished, pc 3 the `SDL_AtomicGet` read. -/
def stepSys (s : ThreadSys) (t : Tid) : Option ThreadSys :=
  match t with
  | .t1 => (workerStepAux s.w1 s.counter).map
      (fun p => { s with w1 := p.1, counter := p.2 })
  | .t2 => (workerStepAux s.w2 s.counter).map
      (fun p => { s with w2 := p.1, counter := p.2 })
  | .t3 => (workerStepAux s.w3 s.counter).map
      (fun p => { s with w3 := p.1, counter := p.2 })
  | .mainT =>
      if s.mainPC = 0 then some { s with mainPC := 1 }
      else if s.mainPC = 1 then
        (if s.w2 = 3 then some { s with mainPC := 2 } else none)
      else if s.mainPC = 2 then
        (if s.w3 = 3 then some { s with mainPC := 3 } else none)
      else if s.mainPC = 3 then
        some { s with mainPC := 4, readValue := some s.counter }
      else none

/-- Run a schedule: each entry names the thread that takes the next step; a
blocked or finished thread leaves the state unchanged. -/
def runSys : List Tid → ThreadSys → ThreadSys
  | [], s => s
  | t :: rest, s => runSys rest ((stepSys s t).getD s)

/-- Contribution of one worker to the counter: `1` once it has executed its
`SDL_AtomicAdd` (pc 3), else `0`. -/
def wContrib (pc : ℕ) : ℕ :=
  if pc = 3 then 1 else 0

/-- System invariant: the counter equals the number of completed increments;
pcs stay in range; a completed join certifies that the joined worker has
finished; a recorded read is between 2 and 3. -/
def sysInv (s : ThreadSys) : Prop :=
  s.counter = wContrib s.w1 + wContrib s.w2 + wContrib s.w3 ∧
  s.w1 ≤ 3 ∧ s.w2 ≤ 3 ∧ s.w3 ≤ 3 ∧
  (2 ≤ s.mainPC → s.w2 = 3) ∧
  (3 ≤ s.mainPC → s.w3 = 3) ∧
  (∀ v, s.readValue = some v → 2 ≤ v ∧ v ≤ 3)

/-! ## The call trace of `main` (main.cpp lines 63-575)

`main` is a straight-line sequence of library calls with a handful of
result-directed branches.  Each SDL call the program makes is recorded as a
`Call`; `log fmt` records `SDL_Log(fmt, ...)` and `logErr fmt` records an
`SDL_Log` whose vararg is `SDL_GetError()` (the library's last-error string).
The `Env` record carries the results the external library returns to the
program: they are the only sources of branching in `main`. -/

inductive Call where
  | log : String → Call
  | logErr : String → Call
  | setHint : String → String → Bool → Call
  | setError : String → Call
  | clearError : Call
  | sdlInit : ℕ → Int → Call
  | wasInitQ : ℕ → Bool → Call
  | free : Call
  | getAssertionReport : Call
  | delay : ℕ → Call
  | addTimer : ℕ → ℕ → Call
  | removeTimer : ℕ → Bool → Call
  | createThread : String → Call
  | detachThread : Call
  | waitThread : Call
  | atomicGet : ℕ → Call
  | rwFromMem : Option ℕ → Call
  | rwWrite : ℕ → String → ℕ → ℕ → Call
  | rwClose : Option ℕ → Int → Call
  | getNumVideoDrivers : Call
  | getNumVideoDisplays : Call
  | createWindow : String → Int → Int → Int → Int → ℕ → Option ℕ → Call
  | setWindowResizable : ℕ → Bool → Call
  | setWindowMaximumSize : ℕ → Int → Int → Call
  | setWindowMinimumSize : ℕ → Int → Int → Call
  | setWindowTitle : ℕ → String → Call
  | raiseWindow : ℕ → Call
  | unionRect : Call
  | eventState : ℕ → ℕ → Call
  | destroyWindow : Option ℕ → Call
  | sdlQuit : Call
deriving DecidableEq

/-- The results the external library hands back to `main`; window and stream
handles are `Option ℕ` with `none` standing for a NULL pointer. -/
structure Env where
  hintResult : Bool
  initResult : Int
  timerId : ℕ
  removeResult : Bool
  counterValue : ℕ
  rwHandle : Option ℕ
  writeResult : ℕ
  closeResult : Int
  numVideoDrivers : ℕ
  numVideoDisplays : ℕ
  windowHandle : Option ℕ
  batches : ℕ → List SDL_Event

/-- main.cpp lines 77-78: the render-driver hint. -/
def hintTrace (env : Env) : List Call :=
  [.setHint "SDL_RENDER_DRIVER" "opengl" env.hintResult,
   .log "[%d] SDL uses OpenGL\n"]

/-- main.cpp lines 84-89: the error-string round trip. -/
def errorTrace : List Call :=
  [.log "SDL error management testing:\n",
   .logErr "\tInitially: %s\n",
   .setError "Custom error message!",
   .logErr "\tAfter set: %s\n",
   .clearError,
   .logErr "\t  Cleared: %s\n"]

/-- main.cpp lines 120-127: the seven subsystem probes.  After a successful
`SDL_Init(SDL_INIT_VIDEO | SDL_INIT_TIMER)` the initialized mask also contains
the events subsystem, which `SDL_INIT_VIDEO` implies (main.cpp line 104). -/
def initMaskAfterInit : ℕ := SDL_INIT_VIDEO ||| SDL_INIT_TIMER ||| SDL_INIT_EVENTS

def wasInitTrace : List Call :=
  [.log "Initialized SDL subsystems:\n",
   .wasInitQ SDL_INIT_TIMER (initMaskAfterInit &&& SDL_INIT_TIMER != 0),
   .log "[%d] Timer\n",
   .wasInitQ SDL_INIT_AUDIO (initMaskAfterInit &&& SDL_INIT_AUDIO != 0),
   .log "[%d] Audio\n",
   .wasInitQ SDL_INIT_VIDEO (initMaskAfterInit &&& SDL_INIT_VIDEO != 0),
   .log "[%d] Video\n",
   .wasInitQ SDL_INIT_JOYSTICK (initMaskAfterInit &&& SDL_INIT_JOYSTICK != 0),
   .log "[%d] Joystick\n",
   .wasInitQ SDL_INIT_HAPTIC (initMaskAfterInit &&& SDL_INIT_HAPTIC != 0),
   .log "[%d] Haptic\n",
   .wasInitQ SDL_INIT_GAMECONTROLLER
     (initMaskAfterInit &&& SDL_INIT_GAMECONTROLLER != 0),
   .log "[%d] Game controller\n",
   .wasInitQ SDL_INIT_EVENTS (initMaskAfterInit &&& SDL_INIT_EVENTS != 0),
   .log "[%d] Events\n"]

/-- main.cpp lines 142-164: platform/CPU logging followed by the two
`SDL_free` calls.  The individual per-feature log lines carry only vararg
values, so they are recorded by their format strings. -/
def systemInfoTrace : List Call :=
  [.log "SDL system information testing:\n",
   .log "\tPlatform: %s\n",
   .log "\tBase path: %s\n",
   .log "\tPref path: %s\n",
   .log "\tLogical CPU cores: %d\n",
   .log "\tCPU L1 cache line: %d bytes\n",
   .log "\tRAM: %d MB\n",
   .log "SDL system information about CPU feature support:",
   .free,
   .free]

/-- main.cpp lines 188-201: the three assertion macros pass (their conditions
are literally `true == true`), so the assertion report iteration finds an
empty report and logs nothing. -/
def assertTrace : List Call :=
  [.getAssertionReport]

/-- main.cpp lines 213-230: delays, periodic timer registration, removal. -/
def timerTrace (env : Env) : List Call :=
  [.log "Testing SDL timer features:\n",
   .log "\tPerformance counter frequency: %u\n",
   .log "\tPerforming a small SDL one second delay and using timers.\n",
   .log "\t%04u --- %u\n",
   .delay 1000,
   .log "\t%04u --- %u\n",
   .log "\tChecking how the SDL periodic timer works.\n",
   .log "\tCreating a timer with 500 millisecond interval.\n",
   .addTimer 500 env.timerId] ++
  (if env.timerId = 0 then [.logErr "\tUnable to create SDL timer: %s\n"]
   else []) ++
  [.delay 1010,
   .removeTimer env.timerId env.removeResult] ++
  (if env.removeResult = false then
     [.log "\tSDL was unable to find a timer with id: %d\n"]
   else []) ++
  [.log "\tRemoved the timer.\n"]

/-- main.cpp lines 261-272: three workers spawned, the first detached, the
second and third joined, then the atomic counter is read and logged. -/
def threadTrace (env : Env) : List Call :=
  [.log "Testing SDL threading features:\n",
   .createThread "foo-1",
   .createThread "foo-2",
   .createThread "foo-3",
   .detachThread,
   .waitThread,
   .waitThread,
   .log "\tAll threads have processed their work.\n",
   .atomicGet env.counterValue,
   .log "\tAtomic integer is now to %d.\n"]

/-- main.cpp lines 300-321: the memory stream section.  `SDL_strlen("bar")`
is `3`; the `SDL_RWclose` call at line 318 sits outside the null check of line
306, so it receives the handle unconditionally. -/
def rwTrace (env : Env) : List Call :=
  [.log "Testing SDL data I/O abstraction features:\n",
   .log "\tbuffer content before write: %s\n",
   .rwFromMem env.rwHandle] ++
  (match env.rwHandle with
   | none => [.logErr "\tFailed to load buffer to structure: %s\n"]
   | some h =>
       [.rwWrite h "bar" 3 env.writeResult] ++
       (if env.writeResult ≠ 3 then
          [.logErr "\tFailed to write buffer data: %s\n"]
        else [])) ++
  [.rwClose env.rwHandle env.closeResult] ++
  (if env.closeResult ≠ 0 then
     [.logErr "\tFailed to close the structure buffer: %s\n"]
   else []) ++
  [.log "\tbuffer content after write: %s\n"]

/-- main.cpp lines 332-416: video-driver and display enumeration.  The body
of the per-display loop is pure conditional logging of library query results
and is recorded by its header line. -/
def videoTrace (env : Env) : List Call :=
  [.getNumVideoDrivers,
   .log "Testing SDL graphics card features:\n",
   .log "\tNumber of video drivers: %d\n"] ++
  (List.range env.numVideoDrivers).map (fun _ => .log "\t\t[%d] driver: %s\n") ++
  [.log "\tCurrent video driver: %s\n",
   .getNumVideoDisplays,
   .log "Testing SDL display features:\n",
   .log "\tNumber of displays: %d\n"] ++
  (List.range env.numVideoDisplays).map
    (fun _ => .log "\tDisplay [%d] information:\n")

/-- main.cpp lines 487-499: window creation and, on success, the five
mutation calls; on failure, logging of the last-error string.  No return
value of the mutation calls is inspected. -/
def windowTrace (window : Option ℕ) : List Call :=
  [.log "Testing SDL window management features:\n",
   .createWindow "foo" 50 50 800 600 SDL_WINDOW_OPENGL window] ++
  (match window with
   | none => [.logErr "Failed to create a new SDL window: %s\n"]
   | some w =>
       [.setWindowResizable w true,
        .setWindowMaximumSize w 1024 768,
        .setWindowMinimumSize w 640 480,
        .setWindowTitle w "foobar",
        .raiseWindow w])

/-- main.cpp lines 524-531: the rectangle section. -/
def rectTrace : List Call :=
  [.log "Testing SDL rect features:\n",
   .log "\rect1: x=%d y=%d w=%d h=%d\n",
   .log "\rect2: x=%d y=%d w=%d h=%d\n",
   .unionRect,
   .log "\t\tunion: x=%d y=%d w=%d h=%d\n"]

/-- main.cpp lines 553-554: ignore mouse button events before the loop. -/
def eventSetupTrace : List Call :=
  [.eventState SDL_MOUSEBUTTONDOWN SDL_IGNORE,
   .eventState SDL_MOUSEBUTTONUP SDL_IGNORE]

/-- Everything `main` executes between a successful `SDL_Init` and the event
loop, in source order. -/
def postInitTrace (env : Env) : List Call :=
  wasInitTrace ++ systemInfoTrace ++ assertTrace ++ timerTrace env ++
  threadTrace env ++ rwTrace env ++ videoTrace env ++
  windowTrace env.windowHandle ++ rectTrace ++ eventSetupTrace

/-- The calls `main` has executed once the outer event loop has run `n`
iterations: the pre-init part always runs; if `SDL_Init` reported failure
(nonzero result, line 109) only the failure log follows and the program
returns `-1`; otherwise the demonstration sections run and, once the loop has
stopped (a quit event was drained within the first `n` batches), the window
is destroyed and `SDL_Quit` runs. -/
def mainTrace (env : Env) (n : ℕ) : List Call :=
  hintTrace env ++ errorTrace ++ [.sdlInit SDL_INIT_FLAGS env.initResult] ++
  (if env.initResult ≠ 0 then [.logErr "Failed to initialize SDL: %s\n"]
   else
     postInitTrace env ++
     (if runningAfter env.batches n then []
      else [.destroyWindow env.windowHandle, .sdlQuit]))

/-- The process exit code observable after `n` iterations of the outer event
loop: `some (-1)` when `SDL_Init` failed (line 111), `some 0` when the loop
has terminated and `main` returned (line 574), `none` while the loop is still
running. -/
def mainExitAt (env : Env) (n : ℕ) : Option Int :=
  if env.initResult ≠ 0 then some (-1)
  else if runningAfter env.batches n then none
  else some 0

/-! ## Concrete sample environments and inputs, used to evaluate the
embedding on closed instances. -/

/-- An environment in which `SDL_Init` reports failure. -/
def envFail : Env :=
  { hintResult := true, initResult := 1, timerId := 1, removeResult := true,
    counterValue := 2, rwHandle := some 1, writeResult := 3, closeResult := 0,
    numVideoDrivers := 1, numVideoDisplays := 1, windowHandle := some 1,
    batches := fun _ => [] }

/-- An environment in which everything succeeds and the first drained batch
contains the quit event. -/
def envQuit : Env :=
  { envFail with initResult := 0, batches := fun _ => [⟨SDL_QUIT⟩] }

/-- An environment in which `SDL_RWFromMem` returns NULL. -/
def envNoRW : Env :=
  { envFail with initResult := 0, rwHandle := none }

/-- The bytes of the `char buffer[] = "foo"` array (main.cpp line 301),
including its NUL terminator: `sizeof(buffer)` is 4. -/
def fooBuf : List ℕ := [102, 111, 111, 0]

/-- The bytes of the appended string `"bar"` (main.cpp line 310). -/
def barBytes : List ℕ := [98, 97, 114]

/-- A library state with no error recorded and nothing initialized. -/
def sdlState0 : SDLState := { err := "", initMask := 0 }

/-- A schedule that runs worker 2 and worker 3 to completion and then lets
the main thread detach, join twice and read the counter. -/
def schedExample : List Tid :=
  [.t2, .t2, .t2, .t3, .t3, .t3, .mainT, .mainT, .mainT, .mainT]

/-! ## Helper lemmas -/

theorem drainEvents_eq (r : Bool) (evs : List SDL_Event) :
    drainEvents r evs = (r && !(hasQuit evs)) := by
  induction evs generalizing r with
  | nil => simp [drainEvents, hasQuit]
  | cons e rest ih =>
      by_cases h : e.type = SDL_QUIT
      · simp [drainEvents, handleEvent, hasQuit, h, ih]
      · simp [drainEvents, handleEvent, hasQuit, h, ih]

theorem runningAfter_succ (batches : ℕ → List SDL_Event) (n : ℕ) :
    runningAfter batches (n + 1) =
      (runningAfter batches n && !(hasQuit (batches n))) := by
  rw [runningAfter]
  cases h : runningAfter batches n
  · simp
  · simp [drainEvents_eq]

theorem runningAfter_true_iff (batches : ℕ → List SDL_Event) (n : ℕ) :
    runningAfter batches n = true ↔
      ∀ m, m < n → hasQuit (batches m) = false := by
  induction n with
  | zero => simp [runningAfter]
  | succ n ih =>
      rw [runningAfter_succ]
      constructor
      · intro h m hm
        rcases Nat.lt_succ_iff_lt_or_eq.mp hm with hlt | rfl
        · exact (ih.mp (Bool.and_eq_true_iff.mp h).1) m hlt
        · have := (Bool.and_eq_true_iff.mp h).2
          simpa using this
      · intro h
        rw [Bool.and_eq_true_iff]
        refine ⟨ih.mpr (fun m hm => h m (Nat.lt_succ_of_lt hm)), ?_⟩
        have := h n (Nat.lt_succ_self n)
        simp [this]

theorem writeBytes_length (buf data : List ℕ) (pos : ℕ)
    (h : pos + data.length ≤ buf.length) :
    (writeBytes buf pos data).length = buf.length := by
  simp [writeBytes, List.length_append, List.length_take, List.length_drop]
  omega

theorem writeBytes_readback (buf data : List ℕ) (pos : ℕ)
    (h : pos + data.length ≤ buf.length) :
    ((writeBytes buf pos data).drop pos).take data.length = data := by
  have hp : (buf.take pos).length = pos := by
    rw [List.length_take]
    omega
  have hdrop : ∀ (A B : List ℕ), A.length = pos → (A ++ B).drop pos = B := by
    intro A B hA
    rw [← hA, List.drop_left]
  rw [writeBytes, List.append_assoc, hdrop _ _ hp, List.take_left]

theorem sysInv_init : sysInv initSys := by
  refine ⟨rfl, by simp [initSys], by simp [initSys], by simp [initSys],
    ?_, ?_, ?_⟩
  · intro h
    simp [initSys] at h
  · intro h
    simp [initSys] at h
  · intro v hv
    simp [initSys] at hv

theorem sysInv_step (s : ThreadSys) (t : Tid) (h : sysInv s) :
    sysInv ((stepSys s t).getD s) := by
  obtain ⟨hc, h1, h2, h3, hm2, hm3, hr⟩ := h
  cases t with
  | t1 =>
      simp only [stepSys, workerStepAux]
      split_ifs with e0 e1 e2 <;>
        simp_all [sysInv, wContrib] <;> omega
  | t2 =>
      simp only [stepSys, workerStepAux]
      split_ifs with e0 e1 e2 <;>
        simp_all [sysInv, wContrib] <;> omega
  | t3 =>
      simp only [stepSys, workerStepAux]
      split_ifs with e0 e1 e2 <;>
        simp_all [sysInv, wContrib]
  | mainT =>
      simp only [stepSys]
      by_cases hw1 : s.w1 = 3 <;>
        (split_ifs with e0 e1 e2 e3 e4 e5 <;>
          simp_all [sysInv, wContrib])

theorem sysInv_run (sched : List Tid) (s : ThreadSys) (h : sysInv s) :
    sysInv (runSys sched s) := by
  induction sched generalizing s with
  | nil => exact h
  | cons t rest ih => exact ih _ (sysInv_step s t h)

theorem destroyWindow_not_mem_postInit (env : Env) (w : Option ℕ) :
    Call.destroyWindow w ∉ postInitTrace env := by
  obtain ⟨hr, ir, tid, rr, cv, rwh, wr, cr, nvd, nvds, wh, bat⟩ := env
  rcases rwh with _ | s <;> rcases wh with _ | ww <;>
    simp [postInitTrace, wasInitTrace, systemInfoTrace, assertTrace,
      timerTrace, threadTrace, rwTrace, videoTrace, windowTrace, rectTrace,
      eventSetupTrace]

/-! ## Claim theorems -/

/-- Claim C1: the event loop terminates if and only if a quit event is
observed.  The outer loop has stopped after `n + 1` passes exactly when some
batch drained in the first `n + 1` passes contained an event of type
`SDL_QUIT`; if no batch ever contains a quit event the loop is still running
after any number of passes; and draining a batch without a quit event leaves
the `running` flag (the only program state the loop body touches) unchanged,
all other events being observed and discarded. -/
theorem event_loop_quit (batches : ℕ → List SDL_Event) (n : ℕ) :
    (runningAfter batches (n + 1) = false ↔
       ∃ m, m ≤ n ∧ hasQuit (batches m) = true) ∧
    ((∀ m, hasQuit (batches m) = false) → runningAfter batches n = true) ∧
    (∀ r evs, hasQuit evs = false → drainEvents r evs = r) := by
  refine ⟨?_, ?_, ?_⟩
  · rw [← Bool.not_eq_true, runningAfter_true_iff]
    push_neg
    constructor
    · rintro ⟨m, hm, hq⟩
      exact ⟨m, Nat.lt_succ_iff.mp hm, by simpa using hq⟩
    · rintro ⟨m, hm, hq⟩
      exact ⟨m, Nat.lt_succ_iff.mpr hm, by simp [hq]⟩
  · intro h
    exact (runningAfter_true_iff batches n).mpr (fun m _ => h m)
  · intro r evs h
    rw [drainEvents_eq, h]
    simp

/-- Witness for C1 at concrete inputs: with no events ever queued the loop is
still running after three passes, and draining a mouse-button event leaves
`running` untouched. -/
theorem event_loop_quit_witness :
    runningAfter (fun _ => ([] : List SDL_Event)) 3 = true ∧
    drainEvents true [⟨SDL_MOUSEBUTTONDOWN⟩] = true := by
  constructor
  · exact (event_loop_quit (fun _ => []) 3).2.1 (fun m => rfl)
  · exact (event_loop_quit (fun _ => []) 0).2.2 true [⟨SDL_MOUSEBUTTONDOWN⟩]
      (by decide)

/-- Claim C2: the process exit code is `-1` exactly when `SDL_Init` reports
failure (in which case the failure log of the last-error string is the final
call executed and nothing after initialization runs), `0` exactly when the
program terminates via the quit-event path, and no other exit code is ever
produced. -/
theorem main_exit_codes (env : Env) (n : ℕ) :
    (mainExitAt env n = some (-1) ↔ env.initResult ≠ 0) ∧
    (mainExitAt env n = some 0 ↔
       env.initResult = 0 ∧ runningAfter env.batches n = false) ∧
    (∀ c, mainExitAt env n = some c → c = -1 ∨ c = 0) ∧
    (env.initResult ≠ 0 →
       mainTrace env n =
         hintTrace env ++ errorTrace ++
           [.sdlInit SDL_INIT_FLAGS env.initResult] ++
           [.logErr "Failed to initialize SDL: %s\n"]) := by
  by_cases h1 : env.initResult = 0
  · by_cases h2 : runningAfter env.batches n = true
    · have he : mainExitAt env n = none := by
        simp [mainExitAt, h1, h2]
      refine ⟨by simp [he, h1], by simp [he, h2], ?_, fun h => absurd h1 h⟩
      intro c hc
      rw [he] at hc
      exact absurd hc (by simp)
    · have hb : runningAfter env.batches n = false := by
        simpa using h2
      have he : mainExitAt env n = some 0 := by
        simp [mainExitAt, h1, hb]
      refine ⟨?_, by simp [he, h1, hb], ?_, fun h => absurd h1 h⟩
      · rw [he]
        constructor
        · intro hc
          have hinj := Option.some.inj hc
          omega
        · intro hc
          exact absurd h1 hc
      · intro c hc
        rw [he] at hc
        right
        exact (Option.some.inj hc).symm
  · have hne : env.initResult ≠ 0 := h1
    have he : mainExitAt env n = some (-1) := by
      simp [mainExitAt, hne]
    refine ⟨by simp [he, hne], ?_, ?_, ?_⟩
    · rw [he]
      constructor
      · intro hc
        have hinj := Option.some.inj hc
        omega
      · rintro ⟨hc, -⟩
        exact absurd hc hne
    · intro c hc
      rw [he] at hc
      left
      exact (Option.some.inj hc).symm
    · intro h
      simp [mainTrace, h]

/-- Witness for C2 at a concrete input: in `envFail` initialization fails,
the exit code is `-1`, and the trace ends with the failure log. -/
theorem main_exit_codes_witness :
    mainExitAt envFail 0 = some (-1) ∧
    mainTrace envFail 0 =
      hintTrace envFail ++ errorTrace ++
        [.sdlInit SDL_INIT_FLAGS envFail.initResult] ++
        [.logErr "Failed to initialize SDL: %s\n"] := by
  have h := main_exit_codes envFail 0
  exact ⟨h.1.mpr (by decide), h.2.2.2 (by decide)⟩

/-- Claim C3: the error-string mechanism retains nothing after a clear: for
every library state, a `SDL_SetError` of an arbitrary message followed by
`SDL_ClearError` yields a state in which `SDL_GetError` returns the empty
string (main.cpp lines 84-89). -/
theorem error_clear_roundtrip (st : SDLState) (msg : String) :
    SDL_GetError (SDL_ClearError (SDL_SetError msg st)) = "" := rfl

/-- Claim C4: in every interleaving of the three workers with the main
thread, once the main thread has joined workers 2 and 3 and read the shared
atomic counter, the value it read is at least 2 (and at most 3: the detached
worker's increment may or may not be included). -/
theorem joined_counter_at_least_two (sched : List Tid) (v : ℕ)
    (h : (runSys sched initSys).readValue = some v) : 2 ≤ v ∧ v ≤ 3 :=
  (sysInv_run sched initSys sysInv_init).2.2.2.2.2.2 v h

/-- Witness for C4 at a concrete schedule: running workers 2 and 3 to
completion and then the main thread reads the value 2. -/
theorem joined_counter_at_least_two_witness :
    (runSys schedExample initSys).readValue = some 2 ∧ 2 ≤ 2 ∧ 2 ≤ 3 :=
  ⟨by decide, joined_counter_at_least_two schedExample 2 (by decide)⟩

/-- Claim C5: for the memory-backed stream over a fixed buffer, a write whose
bytes fit within the originally provided buffer length succeeds (returns the
full count, leaves the error state alone) and reading the buffer back at the
write position yields byte-identical content without changing the buffer's
length; a write that would exceed that length returns fewer objects than
requested and sets the error string, and still never grows the buffer; and
the allocation performed by the stream is released by `SDL_RWclose` and only
by it (writing leaves the allocation in place). -/
theorem rw_mem_stream (ops : SDL_RWops) (data : List ℕ) (st : SDLState)
    (hlen : ops.buf.length = ops.len) (hpos : ops.pos ≤ ops.len) :
    (ops.pos + data.length ≤ ops.len →
       (SDL_RWwrite ops data st).1 = data.length ∧
       ((SDL_RWwrite ops data st).2.1.buf.drop ops.pos).take data.length
         = data ∧
       (SDL_RWwrite ops data st).2.1.buf.length = ops.len ∧
       (SDL_RWwrite ops data st).2.2 = st) ∧
    (ops.len < ops.pos + data.length →
       (SDL_RWwrite ops data st).1 < data.length ∧
       SDL_GetError (SDL_RWwrite ops data st).2.2 =
         "Memory write would exceed buffer length" ∧
       (SDL_RWwrite ops data st).2.1.buf.length = ops.len) ∧
    ((SDL_RWwrite ops data st).2.1.allocated = ops.allocated) ∧
    ((SDL_RWclose ops).2.allocated = false) ∧
    ((SDL_RWFromMem data).allocated = true) := by
  refine ⟨?_, ?_, ?_, rfl, rfl⟩
  · intro h
    have hb : ops.pos + data.length ≤ ops.buf.length := by omega
    rw [SDL_RWwrite, if_pos h]
    refine ⟨rfl, writeBytes_readback ops.buf data ops.pos hb, ?_, rfl⟩
    rw [writeBytes_length ops.buf data ops.pos hb]
    exact hlen
  · intro h
    have hnot : ¬(ops.pos + data.length ≤ ops.len) := by omega
    rw [SDL_RWwrite, if_neg hnot]
    refine ⟨by omega, rfl, ?_⟩
    have hfit : ops.pos + (data.take (ops.len - ops.pos)).length
        ≤ ops.buf.length := by
      rw [List.length_take]
      omega
    rw [writeBytes_length ops.buf _ ops.pos hfit]
    exact hlen
  · rw [SDL_RWwrite]
    split_ifs <;> rfl

/-- Witness for C5 at the program's own concrete input: writing the bytes of
"bar" into the stream over the four-byte "foo" buffer succeeds and reads back
identically, and closing releases the allocation. -/
theorem rw_mem_stream_witness :
    ((SDL_RWwrite (SDL_RWFromMem fooBuf) barBytes sdlState0).2.1.buf.drop
        (SDL_RWFromMem fooBuf).pos).take barBytes.length = barBytes ∧
    (SDL_RWclose (SDL_RWFromMem fooBuf)).2.allocated = false := by
  have h := rw_mem_stream (SDL_RWFromMem fooBuf) barBytes sdlState0
    (by decide) (by decide)
  exact ⟨(h.1 (by decide)).2.1, h.2.2.2.1⟩

/-- Claim C6: periodic timer registration returns a non-zero identifier
exactly when it succeeds (`0` is the failure sentinel), and removing a timer
identifier that was never issued returns the `false` sentinel. -/
theorem timer_sentinels (ok : Bool) (ts : TimerState) (id : ℕ) :
    ((SDL_AddTimer ok ts).1 ≠ 0 ↔ ok = true) ∧
    (id ∉ ts.issued → (SDL_RemoveTimer id ts).1 = false) := by
  constructor
  · cases ok <;> simp [SDL_AddTimer]
  · intro h
    have hact : id ∉ ts.active := fun hmem => h (ts.hsub id hmem)
    simp [SDL_RemoveTimer, hact]

/-- Witness for C6 at concrete inputs: a successful registration on the
initial timer state yields a non-zero identifier, and removing the never
issued identifier 7 returns `false`. -/
theorem timer_sentinels_witness :
    ((SDL_AddTimer true initialTimerState).1 ≠ 0 ↔ true = true) ∧
    (SDL_RemoveTimer 7 initialTimerState).1 = false := by
  have h := timer_sentinels true initialTimerState 7
  exact ⟨h.1, h.2 (by decide)⟩

/-- Claim C7: when window creation fails (NULL handle) the program logs the
library's last-error string and nothing else in that section; when it
succeeds the five mutation calls (resizable, maximum size, minimum size,
title, raise) are applied to the live handle with no return value inspected;
and in either case execution continues to the next demonstration step (the
rectangle section follows the window section in the post-init trace). -/
theorem window_creation_paths (env : Env) (w : ℕ) :
    (windowTrace none =
       [.log "Testing SDL window management features:\n",
        .createWindow "foo" 50 50 800 600 SDL_WINDOW_OPENGL none,
        .logErr "Failed to create a new SDL window: %s\n"]) ∧
    (windowTrace (some w) =
       [.log "Testing SDL window management features:\n",
        .createWindow "foo" 50 50 800 600 SDL_WINDOW_OPENGL (some w),
        .setWindowResizable w true,
        .setWindowMaximumSize w 1024 768,
        .setWindowMinimumSize w 640 480,
        .setWindowTitle w "foobar",
        .raiseWindow w]) ∧
    (∃ pre, postInitTrace env =
       pre ++ windowTrace env.windowHandle ++ (rectTrace ++ eventSetupTrace)) := by
  refine ⟨rfl, rfl, ?_⟩
  refine ⟨wasInitTrace ++ systemInfoTrace ++ assertTrace ++ timerTrace env ++
    threadTrace env ++ rwTrace env ++ videoTrace env, ?_⟩
  simp [postInitTrace, List.append_assoc]

/-- Claim C8: the subsystem-status queries are read-only boolean probes: for
every library state each query returns the state unchanged (in particular the
error string and so every program variable derived from the state), and
querying the same subsystem twice in succession returns the same boolean; the
seven probes of main.cpp lines 121-127 run in sequence also leave the state
unchanged and are repeatable. -/
theorem wasinit_probes_pure (st : SDLState) (flags : ℕ) :
    ((SDL_WasInit flags st).2 = st) ∧
    ((SDL_WasInit flags st).2.err = st.err) ∧
    (((SDL_WasInit flags ((SDL_WasInit flags st).2)).1 != 0)
       = ((SDL_WasInit flags st).1 != 0)) ∧
    ((wasInitQueries st).2 = st) ∧
    ((wasInitQueries ((wasInitQueries st).2)).1 = (wasInitQueries st).1) :=
  ⟨rfl, rfl, rfl, rfl, rfl⟩

/-- Claim C9: the `SDL_RWclose` call of main.cpp line 318 sits outside the
null check of line 306 and is therefore executed unconditionally: it appears
in the stream section's trace for every environment, and in particular when
stream creation failed it is invoked on the NULL handle. -/
theorem rwclose_unconditional (env : Env) :
    (Call.rwClose env.rwHandle env.closeResult ∈ rwTrace env) ∧
    (env.rwHandle = none →
       Call.rwClose none env.closeResult ∈ rwTrace env) := by
  obtain ⟨hr, ir, tid, rr, cv, rwh, wr, cr, nvd, nvds, wh, bat⟩ := env
  constructor
  · rcases rwh with _ | s <;> simp [rwTrace]
  · intro h
    simp only at h
    subst h
    simp [rwTrace]

/-- Witness for C9 at a concrete input: in `envNoRW` stream creation returns
NULL and the close call on the NULL handle is still part of the trace. -/
theorem rwclose_unconditional_witness :
    Call.rwClose none envNoRW.closeResult ∈ rwTrace envNoRW :=
  (rwclose_unconditional envNoRW).2 rfl

/-- Claim C10: window destruction at teardown is executed unconditionally:
whenever the program terminates through the quit-event path, the trace ends
with `SDL_DestroyWindow` applied to whatever handle window creation produced
(the NULL handle included, since the destroy call of main.cpp line 571 is
outside the null check of line 491) followed by `SDL_Quit`, and that destroy
call occurs exactly once in the whole trace. -/
theorem destroy_window_teardown (env : Env) (n : ℕ)
    (hinit : env.initResult = 0) (hterm : runningAfter env.batches n = false) :
    (mainTrace env n =
       (hintTrace env ++ errorTrace ++
         [.sdlInit SDL_INIT_FLAGS env.initResult] ++ postInitTrace env) ++
       [.destroyWindow env.windowHandle, .sdlQuit]) ∧
    ((mainTrace env n).count (Call.destroyWindow env.windowHandle) = 1) := by
  have htr : mainTrace env n =
      (hintTrace env ++ errorTrace ++
        [.sdlInit SDL_INIT_FLAGS env.initResult] ++ postInitTrace env) ++
      [.destroyWindow env.windowHandle, .sdlQuit] := by
    simp [mainTrace, hinit, hterm]
  refine ⟨htr, ?_⟩
  rw [htr]
  have h1 : Call.destroyWindow env.windowHandle ∉
      hintTrace env ++ errorTrace ++
        [Call.sdlInit SDL_INIT_FLAGS env.initResult] ++ postInitTrace env := by
    intro hmem
    rcases List.mem_append.mp hmem with hmem | hmem
    · rcases List.mem_append.mp hmem with hmem | hmem
      · rcases List.mem_append.mp hmem with hmem | hmem
        · simp [hintTrace] at hmem
        · simp [errorTrace] at hmem
      · simp at hmem
    · exact destroyWindow_not_mem_postInit env env.windowHandle hmem
  rw [List.count_append, List.count_eq_zero_of_not_mem h1]
  simp [List.count_cons]

/-- Witness for C10 at a concrete input: in `envQuit` the loop stops on the
first pass and the destroy call on the created handle appears exactly once. -/
theorem destroy_window_teardown_witness :
    (mainTrace envQuit 1).count (Call.destroyWindow envQuit.windowHandle)
      = 1 :=
  (destroy_window_teardown envQuit 1 (by decide) (by decide)).2

end SDL2Sandbox
